import Mathlib

/-!
Shallow embedding of the Devin-FinOps core: the resilient API ingestion layer
(error_handling.py, data_adapter.py) and the layered metrics engine
(metrics_calculator.py, metrics_service.py, config.py).  Machine reals that the
Python code manipulates (prices, ACU quantities, backoff delays) are modelled
as rationals; validated session fields (acus_consumed, duration_minutes) are
natural numbers, matching the pydantic validators (validators.py).
-/

/-! ### error_handling.py : handle_api_errors -/

/-- Outcome of one invocation of the operation wrapped by the
handle_api_errors decorator (error_handling.py lines 102-205): a normal
return, an HTTPError carrying an optional status code, a Timeout, a
ConnectionError, an exception already of the API error taxonomy
(re-raised untouched), or any other exception. -/
inductive CallOutcome where
  | success (v : Nat)
  | httpError (status : Option Nat)
  | timeoutExc
  | connectionExc
  | taxonomyExc
  | unexpectedExc
deriving DecidableEq

/-- The error finally raised by the handle_api_errors wrapper, one
constructor per raise site in error_handling.py. -/
inductive RaisedError where
  | authenticationError (status : Nat)
  | serverError (status : Nat)
  | apiErrorStatus (status : Option Nat)
  | apiErrorTimeout
  | apiErrorConnection
  | apiErrorPassthrough
  | apiErrorUnexpected
  | apiErrorExhausted
deriving DecidableEq

/-- The keyword parameters of handle_api_errors (error_handling.py lines
77-81). -/
structure RetryPolicy where
  max_retries : Nat
  base_delay : ℚ
  max_delay : ℚ
  retryable_status_codes : List Nat

/-- The default decorator parameters: max_retries=3, base_delay=1.0,
max_delay=30.0, retryable_status_codes=(429, 500, 502, 503, 504). -/
def defaultRetryPolicy : RetryPolicy :=
  ⟨3, 1, 30, [429, 500, 502, 503, 504]⟩

/-- Observable behaviour of one run of the wrapper: the value returned or
error raised, the number of invocations of the wrapped operation, and the
backoff delays passed to time.sleep, in order. -/
structure RunResult where
  result : Except RaisedError Nat
  attempts : Nat
  sleeps : List ℚ

/-- The delay computed at error_handling.py lines 124/155/173:
min(base_delay * 2 ** (attempt - 1), max_delay). -/
def backoffDelay (p : RetryPolicy) (attempt : Nat) : ℚ :=
  min (p.base_delay * 2 ^ (attempt - 1)) p.max_delay

/-- The body of the `for attempt in range(1, max_retries + 1)` loop of
handle_api_errors.  `f n` is the outcome of the n-th invocation of the
wrapped operation; `fuel` is the number of loop iterations still available
(initially max_retries), so falling off the loop end (fuel 0) reaches the
final `raise APIError(...)` at line 207. -/
def retryGo (p : RetryPolicy) (f : Nat → CallOutcome) (attempt : Nat) :
    Nat → RunResult
  | 0 => ⟨.error .apiErrorExhausted, 0, []⟩
  | fuel + 1 =>
    match f attempt with
    | .success v => ⟨.ok v, 1, []⟩
    | .httpError none => ⟨.error (.apiErrorStatus none), 1, []⟩
    | .httpError (some s) =>
        if s = 401 ∨ s = 403 then
          ⟨.error (.authenticationError s), 1, []⟩
        else if s ∈ p.retryable_status_codes then
          if attempt < p.max_retries then
            let r := retryGo p f (attempt + 1) fuel
            ⟨r.result, r.attempts + 1, backoffDelay p attempt :: r.sleeps⟩
          else ⟨.error (.serverError s), 1, []⟩
        else ⟨.error (.apiErrorStatus (some s)), 1, []⟩
    | .timeoutExc =>
        if attempt < p.max_retries then
          let r := retryGo p f (attempt + 1) fuel
          ⟨r.result, r.attempts + 1, backoffDelay p attempt :: r.sleeps⟩
        else ⟨.error .apiErrorTimeout, 1, []⟩
    | .connectionExc =>
        if attempt < p.max_retries then
          let r := retryGo p f (attempt + 1) fuel
          ⟨r.result, r.attempts + 1, backoffDelay p attempt :: r.sleeps⟩
        else ⟨.error .apiErrorConnection, 1, []⟩
    | .taxonomyExc => ⟨.error .apiErrorPassthrough, 1, []⟩
    | .unexpectedExc => ⟨.error .apiErrorUnexpected, 1, []⟩

/-- The wrapper produced by the handle_api_errors decorator: run the loop
starting at attempt 1 with max_retries iterations available. -/
def handle_api_errors (p : RetryPolicy) (f : Nat → CallOutcome) : RunResult :=
  retryGo p f 1 p.max_retries

/-- The shapes of a call outcome that take the retry-with-backoff branch of
the wrapper, paired with the terminal error raised once retries are
exhausted: a retryable non-auth HTTP status (terminal ServerError), a
Timeout (terminal APIError "TIMEOUT"), a ConnectionError (terminal APIError
"CONNECTION_ERROR"). -/
inductive RetryableShape (p : RetryPolicy) : CallOutcome → RaisedError → Prop where
  | http (s : Nat) (h1 : s ≠ 401) (h2 : s ≠ 403)
      (h3 : s ∈ p.retryable_status_codes) :
      RetryableShape p (.httpError (some s)) (.serverError s)
  | timeoutShape : RetryableShape p .timeoutExc .apiErrorTimeout
  | connShape : RetryableShape p .connectionExc .apiErrorConnection

/-! ### data_adapter.py : fetch_cognition_data (single-resource pagination) -/

/-- The parsed JSON body of one pagination response: its `data` array and
its `has_more` flag (data_adapter.py lines 124-131).  Records are an
arbitrary type α. -/
structure PageBody (α : Type) where
  data : List α
  has_more : Bool
deriving DecidableEq

/-- One response of the upstream API to a page request: an HTTP response
with a status code and body, a timeout, or a connection error. -/
inductive PageResp (α : Type) where
  | ok (status : Nat) (body : PageBody α)
  | timeoutR
  | connR
deriving DecidableEq

/-- The error escaping fetch_cognition_data: the ValueError raised on
401/403, a re-raised HTTPError (from raise_for_status), the
RequestException raised on timeout, a re-raised ConnectionError, or the
model artifact marking an exhausted response sequence while has_more was
still true. -/
inductive FetchErr where
  | authFailed (status : Nat)
  | httpFailed (status : Nat)
  | timeoutFailed
  | connFailed
  | outOfResponses
deriving DecidableEq

/-- The `while has_more` loop of fetch_cognition_data (data_adapter.py
lines 90-150).  `pages` is the sequence of upstream responses consumed by
successive requests; the result is the accumulated `data` concatenation or
the raised error, together with the list of `skip` offsets requested, in
order. -/
def fetchPages {α : Type} (pages : List (PageResp α)) (skip psize : Nat) :
    Except FetchErr (List α) × List Nat :=
  match pages with
  | [] => (.error .outOfResponses, [])
  | page :: rest =>
    match page with
    | .timeoutR => (.error .timeoutFailed, [skip])
    | .connR => (.error .connFailed, [skip])
    | .ok status body =>
      if status = 401 then (.error (.authFailed 401), [skip])
      else if status = 403 then (.error (.authFailed 403), [skip])
      else if 400 ≤ status ∧ status < 600 then
        (.error (.httpFailed status), [skip])
      else if body.has_more then
        let r := fetchPages rest (skip + psize) psize
        (r.1.map (fun tail => body.data ++ tail), skip :: r.2)
      else (.ok body.data, [skip])

/-- fetch_cognition_data: start the pagination loop at skip = 0. -/
def fetch_cognition_data {α : Type} (pages : List (PageResp α)) (psize : Nat) :
    Except FetchErr (List α) × List Nat :=
  fetchPages pages 0 psize

/-! ### JSON bodies shared by data_adapter.py and metrics_service.py -/

/-- The fields of a parsed JSON object body that calculate_base_metrics
reads, each optional: a missing field makes the corresponding .get(...)
fall back to its default. -/
structure JsonObj where
  total_acus : Option ℚ := none
  consumption_by_date : Option (List (String × ℚ)) := none
  consumption_by_user : Option (List (String × ℚ)) := none
  consumption_by_org_id : Option (List (String × ℚ)) := none
  prs_opened : Option Nat := none
  prs_closed : Option Nat := none
  prs_merged : Option Nat := none
  sessions_count : Option Nat := none
  total : Option Nat := none

/-- A parsed JSON value as far as the metrics code distinguishes it: a JSON
object (Python dict) or any other JSON value (list, number, string...). -/
inductive JsonLike where
  | obj (o : JsonObj)
  | other

/-- The `response` field stored in a FetchResult: decoded JSON, or raw
text (unparsed body or error message). -/
inductive RespVal where
  | json (j : JsonLike)
  | text (s : String)

/-- The status_code field of a FetchResult: an HTTP integer code or one of
the string sentinels "TIMEOUT" / "CONNECTION_ERROR" / "ERROR" used by
fetch_api_data (data_adapter.py lines 251-277). -/
inductive StatusCode where
  | code (n : Nat)
  | timeoutMark
  | connectionErrorMark
  | errorMark
deriving DecidableEq

/-- One per-endpoint entry of the dictionary returned by fetch_api_data:
{endpoint_path, full_url, status_code, response}. -/
structure FetchResult where
  endpoint_path : String
  full_url : String
  status_code : StatusCode
  response : RespVal

/-- Outcome of the one requests.get call made for an endpoint inside
fetch_api_data: an HTTP response (raw text body plus its JSON parse, none
when json.loads would raise), a timeout, a connection error, or any other
exception. -/
inductive NetOutcome where
  | httpResp (status : Nat) (bodyText : String) (bodyJson : Option JsonLike)
  | netTimeout
  | netConnError (msg : String)
  | netOther (msg : String)

/-- Python str.startswith, on the character lists of the strings. -/
def strStartsWith (s t : String) : Bool :=
  t.data.isPrefixOf s.data

/-- Endpoint-to-base-URL routing of fetch_api_data (data_adapter.py lines
210-213): paths starting with "/audit-logs" use the v2 base, everything
else the enterprise base. -/
def route_base_url (path : String) : String :=
  if strStartsWith path "/audit-logs" then "https://api.devin.ai/v2"
  else "https://api.devin.ai/v2/enterprise"

/-- The body of the per-endpoint loop of fetch_api_data (data_adapter.py
lines 207-277): perform the call and record a result entry; every failure
kind is caught and recorded in the entry itself. -/
def fetchOne (net : String → NetOutcome) (ep : String × String) :
    String × FetchResult :=
  match net ep.1 with
  | .httpResp status bodyText bodyJson =>
      (ep.1, ⟨ep.2, route_base_url ep.2 ++ ep.2, .code status,
        if status = 200 then
          match bodyJson with
          | some j => RespVal.json j
          | none => RespVal.text bodyText
        else RespVal.text bodyText⟩)
  | .netTimeout =>
      (ep.1, ⟨ep.2, route_base_url ep.2 ++ ep.2, .timeoutMark,
        .text "Request timeout"⟩)
  | .netConnError m =>
      (ep.1, ⟨ep.2, route_base_url ep.2 ++ ep.2, .connectionErrorMark, .text m⟩)
  | .netOther m =>
      (ep.1, ⟨ep.2, route_base_url ep.2 ++ ep.2, .errorMark, .text m⟩)

/-- fetch_api_data: iterate the endpoint mapping sequentially, one result
entry per endpoint. -/
def fetch_api_data (endpoints : List (String × String))
    (net : String → NetOutcome) : List (String × FetchResult) :=
  endpoints.map (fetchOne net)

/-- The status_code that fetch_api_data records for a given call outcome. -/
def netStatus : NetOutcome → StatusCode
  | .httpResp s _ _ => .code s
  | .netTimeout => .timeoutMark
  | .netConnError _ => .connectionErrorMark
  | .netOther _ => .errorMark

/-! ### config.py and validators.py -/

/-- MetricsConfig (config.py): price per ACU and auxiliary parameters. -/
structure MetricsConfig where
  price_per_acu : ℚ
  currency : String
  working_hours_per_day : Nat
  working_days_per_month : Nat
deriving DecidableEq

/-- The default MetricsConfig: price_per_acu=0.05, currency="USD",
working_hours_per_day=8, working_days_per_month=22. -/
def defaultMetricsConfig : MetricsConfig := ⟨1/20, "USD", 8, 22⟩

/-- A validated session record (validators.py SessionData): duration and
ACUs are non-negative integers. -/
structure Session where
  session_id : String
  user_email : String
  duration_minutes : Nat
  acus_consumed : Nat
  task_type : String
  status : String
deriving DecidableEq

/-- A validated user record (validators.py UserDetail). -/
structure UserDetail where
  user_email : String
  department : String
  role : String
deriving DecidableEq

/-- The reporting_period object of the usage data payload. -/
structure ReportingPeriod where
  start_date : Option String
  end_date : Option String
  month : Option String
deriving DecidableEq

/-- The complete validated usage data payload (validators.py UsageData). -/
structure UsageData where
  organization : Option String
  reporting_period : ReportingPeriod
  sessions : List Session
  user_details : List UserDetail
deriving DecidableEq

/-! ### metrics_calculator.py : MetricsCalculator -/

/-- The state of a MetricsCalculator instance: its config, the raw loaded
data (None before a successful load_data), and the validated session and
user lists. -/
structure MetricsCalculator where
  config : MetricsConfig
  data : Option UsageData
  sessions : List Session
  users : List UserDetail

/-- Add `v` to the entry of key `k` of an association list, appending a new
entry when the key is absent: the update step of a Python
defaultdict(int). -/
def addToGroup (l : List (String × Nat)) (k : String) (v : Nat) :
    List (String × Nat) :=
  match l with
  | [] => [(k, v)]
  | (k1, v1) :: rest =>
    if k1 = k then (k1, v1 + v) :: rest
    else (k1, v1) :: addToGroup rest k v

/-- The defaultdict(int) accumulation pattern used by the grouped metrics:
for each session, add `val s` to the bucket of `key s`. -/
def groupSum (key : Session → String) (val : Session → Nat)
    (ss : List Session) : List (String × Nat) :=
  ss.foldl (fun acc s => addToGroup acc (key s) (val s)) []

/-- Metric 2: sum of acus_consumed over all sessions. -/
def calculate_total_acus (c : MetricsCalculator) : Nat :=
  (c.sessions.map (·.acus_consumed)).sum

/-- Metric 1: total ACUs times price_per_acu. -/
def calculate_total_monthly_cost (c : MetricsCalculator) : ℚ :=
  ((c.sessions.map (·.acus_consumed)).sum : ℚ) * c.config.price_per_acu

/-- Metric 3: per-user ACU totals converted to cost. -/
def calculate_cost_per_user (c : MetricsCalculator) : List (String × ℚ) :=
  (groupSum (·.user_email) (·.acus_consumed) c.sessions).map
    (fun p => (p.1, (p.2 : ℚ) * c.config.price_per_acu))

/-- Metric 4: session_id to acus_consumed. -/
def calculate_acus_per_session (c : MetricsCalculator) : List (String × Nat) :=
  c.sessions.map (fun s => (s.session_id, s.acus_consumed))

/-- Metric 5: average ACUs per session, 0.0 on no sessions. -/
def calculate_average_acus_per_session (c : MetricsCalculator) : ℚ :=
  if c.sessions = [] then 0
  else (calculate_total_acus c : ℚ) / (c.sessions.length : ℚ)

/-- Metric 6: number of sessions. -/
def calculate_total_sessions (c : MetricsCalculator) : Nat :=
  c.sessions.length

/-- Metric 7: sessions per user. -/
def calculate_sessions_per_user (c : MetricsCalculator) : List (String × Nat) :=
  groupSum (·.user_email) (fun _ => 1) c.sessions

/-- Metric 8: total duration in minutes. -/
def calculate_total_duration_minutes (c : MetricsCalculator) : Nat :=
  (c.sessions.map (·.duration_minutes)).sum

/-- Metric 9: average session duration, 0.0 on no sessions. -/
def calculate_average_session_duration (c : MetricsCalculator) : ℚ :=
  if c.sessions = [] then 0
  else (calculate_total_duration_minutes c : ℚ) / (c.sessions.length : ℚ)

/-- Metric 10: ACUs per minute, 0.0 on zero total duration. -/
def calculate_acus_per_minute (c : MetricsCalculator) : ℚ :=
  if calculate_total_duration_minutes c = 0 then 0
  else (calculate_total_acus c : ℚ) / (calculate_total_duration_minutes c : ℚ)

/-- Metric 11: cost per minute. -/
def calculate_cost_per_minute (c : MetricsCalculator) : ℚ :=
  calculate_acus_per_minute c * c.config.price_per_acu

/-- Metric 12: number of distinct user emails. -/
def calculate_unique_users (c : MetricsCalculator) : Nat :=
  (c.sessions.map (·.user_email)).dedup.length

/-- Metric 13: sessions per task type. -/
def calculate_sessions_by_task_type (c : MetricsCalculator) :
    List (String × Nat) :=
  groupSum (·.task_type) (fun _ => 1) c.sessions

/-- Metric 14: ACUs per task type. -/
def calculate_acus_by_task_type (c : MetricsCalculator) :
    List (String × Nat) :=
  groupSum (·.task_type) (·.acus_consumed) c.sessions

/-- Metric 15: cost per task type. -/
def calculate_cost_by_task_type (c : MetricsCalculator) : List (String × ℚ) :=
  (calculate_acus_by_task_type c).map
    (fun p => (p.1, (p.2 : ℚ) * c.config.price_per_acu))

/-- The user_dept_map lookup of the department metrics: the department of
the last user record with a given email (a Python dict comprehension keeps
the last binding), "Unknown" when the email is unmapped. -/
def deptOf (users : List UserDetail) (email : String) : String :=
  match users.reverse.find? (fun u => u.user_email == email) with
  | some u => u.department
  | none => "Unknown"

/-- Metric 16: sessions per department. -/
def calculate_sessions_by_department (c : MetricsCalculator) :
    List (String × Nat) :=
  groupSum (fun s => deptOf c.users s.user_email) (fun _ => 1) c.sessions

/-- Metric 17: ACUs per department. -/
def calculate_acus_by_department (c : MetricsCalculator) :
    List (String × Nat) :=
  groupSum (fun s => deptOf c.users s.user_email) (·.acus_consumed) c.sessions

/-- Metric 18: cost per department. -/
def calculate_cost_by_department (c : MetricsCalculator) : List (String × ℚ) :=
  (calculate_acus_by_department c).map
    (fun p => (p.1, (p.2 : ℚ) * c.config.price_per_acu))

/-- Metric 19: average cost per user, 0.0 on zero unique users. -/
def calculate_average_cost_per_user (c : MetricsCalculator) : ℚ :=
  if calculate_unique_users c = 0 then 0
  else calculate_total_monthly_cost c / (calculate_unique_users c : ℚ)

/-- Metric 20: ACUs per hour, 0.0 on zero total duration. -/
def calculate_efficiency_ratio (c : MetricsCalculator) : ℚ :=
  if (calculate_total_duration_minutes c : ℚ) / 60 = 0 then 0
  else (calculate_total_acus c : ℚ) /
    ((calculate_total_duration_minutes c : ℚ) / 60)

/-- A metric value as stored in the metrics dictionary: a scalar rational,
a scalar integer, or a string-keyed dictionary of either. -/
inductive MetricValue where
  | q (x : ℚ)
  | n (x : Nat)
  | qdict (m : List (String × ℚ))
  | ndict (m : List (String × Nat))

/-- The metric_methods list of calculate_all_metrics (metrics_calculator.py
lines 390-411): the 20 (key, computation) pairs, in order.  A computation
is an Except since a Python method call may raise; the embedded methods
themselves are total, so each computes to ok. -/
def metric_methods (c : MetricsCalculator) :
    List (String × Except Unit MetricValue) :=
  [("01_total_monthly_cost", .ok (.q (calculate_total_monthly_cost c))),
   ("02_total_acus", .ok (.n (calculate_total_acus c))),
   ("03_cost_per_user", .ok (.qdict (calculate_cost_per_user c))),
   ("04_acus_per_session", .ok (.ndict (calculate_acus_per_session c))),
   ("05_average_acus_per_session",
     .ok (.q (calculate_average_acus_per_session c))),
   ("06_total_sessions", .ok (.n (calculate_total_sessions c))),
   ("07_sessions_per_user", .ok (.ndict (calculate_sessions_per_user c))),
   ("08_total_duration_minutes",
     .ok (.n (calculate_total_duration_minutes c))),
   ("09_average_session_duration",
     .ok (.q (calculate_average_session_duration c))),
   ("10_acus_per_minute", .ok (.q (calculate_acus_per_minute c))),
   ("11_cost_per_minute", .ok (.q (calculate_cost_per_minute c))),
   ("12_unique_users", .ok (.n (calculate_unique_users c))),
   ("13_sessions_by_task_type",
     .ok (.ndict (calculate_sessions_by_task_type c))),
   ("14_acus_by_task_type", .ok (.ndict (calculate_acus_by_task_type c))),
   ("15_cost_by_task_type", .ok (.qdict (calculate_cost_by_task_type c))),
   ("16_sessions_by_department",
     .ok (.ndict (calculate_sessions_by_department c))),
   ("17_acus_by_department", .ok (.ndict (calculate_acus_by_department c))),
   ("18_cost_by_department", .ok (.qdict (calculate_cost_by_department c))),
   ("19_average_cost_per_user",
     .ok (.q (calculate_average_cost_per_user c))),
   ("20_efficiency_ratio", .ok (.q (calculate_efficiency_ratio c)))]

/-- The 20 metric keys, in the fixed order of metric_methods. -/
def metricKeys : List String :=
  ["01_total_monthly_cost", "02_total_acus", "03_cost_per_user",
   "04_acus_per_session", "05_average_acus_per_session", "06_total_sessions",
   "07_sessions_per_user", "08_total_duration_minutes",
   "09_average_session_duration", "10_acus_per_minute", "11_cost_per_minute",
   "12_unique_users", "13_sessions_by_task_type", "14_acus_by_task_type",
   "15_cost_by_task_type", "16_sessions_by_department",
   "17_acus_by_department", "18_cost_by_department",
   "19_average_cost_per_user", "20_efficiency_ratio"]

/-- The try/except loop of calculate_all_metrics (lines 416-426): every
method's key is written into the metrics dictionary; a raising method
yields None for its key, the run continues. -/
def metrics_loop (methods : List (String × Except Unit MetricValue)) :
    List (String × Option MetricValue) :=
  methods.map (fun p => (p.1, p.2.toOption))

/-- MetricsCalculationError (error_handling.py lines 35-39). -/
inductive CalcError where
  | metricsCalculationError (msg : String)

/-- The result dictionary of calculate_all_metrics: config,
reporting_period, and the metrics dictionary. -/
structure MetricsOutput where
  config : MetricsConfig
  reporting_period : ReportingPeriod
  metrics : List (String × Option MetricValue)

/-- calculate_all_metrics with its method list made explicit: raise
MetricsCalculationError when no data is loaded, otherwise run the metric
loop and assemble the result. -/
def calculate_all_metrics_with (c : MetricsCalculator)
    (methods : List (String × Except Unit MetricValue)) :
    Except CalcError MetricsOutput :=
  match c.data with
  | none => .error (.metricsCalculationError
      "No data loaded. Call load_data() before calculate_all_metrics().")
  | some d => .ok ⟨c.config, d.reporting_period, metrics_loop methods⟩

/-- calculate_all_metrics (metrics_calculator.py lines 372-447). -/
def calculate_all_metrics (c : MetricsCalculator) :
    Except CalcError MetricsOutput :=
  calculate_all_metrics_with c (metric_methods c)

/-! ### metrics_service.py -/

/-- calculate_monthly_acus (metrics_service.py lines 15-32): sum the ACU
values of the dates matching the YYYY-MM month string. -/
def calculate_monthly_acus (consumption_by_date : List (String × ℚ))
    (month_str : String) : ℚ :=
  consumption_by_date.foldl
    (fun total p => if strStartsWith p.1 month_str then total + p.2 else total)
    0

/-- One base-metric entry of calculate_base_metrics: a value plus the JSON
source path it was read from. -/
structure BaseMetric where
  value : MetricValue
  source : String

/-- The base-metric keys extracted from the consumption_daily endpoint. -/
def consumptionKeys : List String :=
  ["total_acus", "consumption_by_date", "consumption_by_user",
   "consumption_by_org_id", "unique_users", "num_organizations"]

/-- The base-metric keys extracted from the metrics_prs endpoint. -/
def prsKeys : List String := ["prs_opened", "prs_closed", "prs_merged"]

/-- The response-decoding steps of each endpoint block of
calculate_base_metrics: a string body goes through json.loads (modelled by
the jparse oracle; none models a JSONDecodeError, which is caught), and
only a dict result is extracted from. -/
def respToObj (jparse : String → Option JsonLike) : RespVal → Option JsonObj
  | .json (.obj o) => some o
  | .json .other => none
  | .text s =>
    match jparse s with
    | some (.obj o) => some o
    | _ => none

/-- The guard sequence of one endpoint block of calculate_base_metrics
(metrics_service.py lines 62-69 etc.): look the endpoint up in the API
data ({} default has no 200 status), require status_code == 200, decode
the response to a dict. -/
def endpointObj (jparse : String → Option JsonLike)
    (api : List (String × FetchResult)) (name : String) : Option JsonObj :=
  match List.lookup name api with
  | some ep =>
    if ep.status_code = StatusCode.code 200 then respToObj jparse ep.response
    else none
  | none => none

/-- The consumption_daily block of calculate_base_metrics (lines 62-100). -/
def extractConsumption (jparse : String → Option JsonLike)
    (api : List (String × FetchResult)) : List (String × BaseMetric) :=
  match endpointObj jparse api "consumption_daily" with
  | some o =>
    [("total_acus",
       ⟨.q (o.total_acus.getD 0), "consumption_daily.response.total_acus"⟩),
     ("consumption_by_date",
       ⟨.qdict (o.consumption_by_date.getD []),
        "consumption_daily.response.consumption_by_date"⟩),
     ("consumption_by_user",
       ⟨.qdict (o.consumption_by_user.getD []),
        "consumption_daily.response.consumption_by_user"⟩),
     ("consumption_by_org_id",
       ⟨.qdict (o.consumption_by_org_id.getD []),
        "consumption_daily.response.consumption_by_org_id"⟩),
     ("unique_users",
       ⟨.n (o.consumption_by_user.getD []).length,
        "consumption_daily.response.consumption_by_user (count)"⟩),
     ("num_organizations",
       ⟨.n (o.consumption_by_org_id.getD []).length,
        "consumption_daily.response.consumption_by_org_id (count keys)"⟩)]
  | none => []

/-- The metrics_prs block of calculate_base_metrics (lines 102-126). -/
def extractPRs (jparse : String → Option JsonLike)
    (api : List (String × FetchResult)) : List (String × BaseMetric) :=
  match endpointObj jparse api "metrics_prs" with
  | some o =>
    [("prs_opened",
       ⟨.n (o.prs_opened.getD 0), "metrics_prs.response.prs_opened"⟩),
     ("prs_closed",
       ⟨.n (o.prs_closed.getD 0), "metrics_prs.response.prs_closed"⟩),
     ("prs_merged",
       ⟨.n (o.prs_merged.getD 0), "metrics_prs.response.prs_merged"⟩)]
  | none => []

/-- The metrics_sessions block of calculate_base_metrics (lines 128-141). -/
def extractSessions (jparse : String → Option JsonLike)
    (api : List (String × FetchResult)) : List (String × BaseMetric) :=
  match endpointObj jparse api "metrics_sessions" with
  | some o =>
    [("sessions_count",
       ⟨.n (o.sessions_count.getD 0),
        "metrics_sessions.response.sessions_count"⟩)]
  | none => []

/-- The members block of calculate_base_metrics (lines 143-156). -/
def extractMembers (jparse : String → Option JsonLike)
    (api : List (String × FetchResult)) : List (String × BaseMetric) :=
  match endpointObj jparse api "members" with
  | some o =>
    [("user_count", ⟨.n (o.total.getD 0), "members.response.total"⟩)]
  | none => []

/-- calculate_base_metrics (metrics_service.py lines 49-163): the four
endpoint blocks in order, then the unconditional config-sourced
price_per_acu entry. -/
def calculate_base_metrics (jparse : String → Option JsonLike)
    (api : List (String × FetchResult)) (config : MetricsConfig) :
    List (String × BaseMetric) :=
  extractConsumption jparse api ++ extractPRs jparse api ++
    extractSessions jparse api ++ extractMembers jparse api ++
    [("price_per_acu", ⟨.q config.price_per_acu, "config.price_per_acu"⟩)]

/-! ### Theorems -/

/-- Key lemma on the retry loop: under a persistently failing retryable
outcome, the loop consumes all its fuel, sleeps a backoff before each
retry, and raises the terminal error of that failure kind. -/
theorem retryGo_retryable (p : RetryPolicy) (f : Nat → CallOutcome)
    (o : CallOutcome) (e : RaisedError) (hsh : RetryableShape p o e)
    (hf : ∀ n, f n = o) :
    ∀ fuel attempt, 1 ≤ fuel → attempt + fuel = p.max_retries + 1 →
      retryGo p f attempt fuel =
        ⟨.error e, fuel,
          (List.range (fuel - 1)).map (fun i => backoffDelay p (attempt + i))⟩ := by
  intro fuel
  induction fuel with
  | zero => intro attempt h0 _; exact absurd h0 (by omega)
  | succ n ih =>
    intro attempt _ hsync
    have hcons : 1 ≤ n →
        (List.range n).map (fun i => backoffDelay p (attempt + i)) =
          backoffDelay p attempt ::
            (List.range (n - 1)).map (fun i => backoffDelay p (attempt + 1 + i)) := by
      intro hn
      obtain ⟨m, rfl⟩ : ∃ m, n = m + 1 := ⟨n - 1, by omega⟩
      rw [List.range_succ_eq_map, List.map_cons, List.map_map]
      have hfun : ((fun i => backoffDelay p (attempt + i)) ∘ Nat.succ) =
          fun i => backoffDelay p (attempt + 1 + i) := by
        funext i
        show backoffDelay p (attempt + Nat.succ i) = backoffDelay p (attempt + 1 + i)
        congr 1
        omega
      rw [hfun]
      simp
    cases hsh with
    | http s h1 h2 h3 =>
      have hor : ¬(s = 401 ∨ s = 403) := by
        intro h
        rcases h with h | h
        · exact h1 h
        · exact h2 h
      show retryGo p f attempt (n + 1) = _
      by_cases hlt : attempt < p.max_retries
      · have hn : 1 ≤ n := by omega
        simp only [retryGo, hf, if_neg hor, if_pos h3, if_pos hlt,
          ih (attempt + 1) hn (by omega), Nat.add_sub_cancel]
        rw [hcons hn]
      · have hn0 : n = 0 := by omega
        subst hn0
        simp only [retryGo, hf, if_neg hor, if_pos h3, if_neg hlt]
        simp
    | timeoutShape =>
      show retryGo p f attempt (n + 1) = _
      by_cases hlt : attempt < p.max_retries
      · have hn : 1 ≤ n := by omega
        simp only [retryGo, hf, if_pos hlt,
          ih (attempt + 1) hn (by omega), Nat.add_sub_cancel]
        rw [hcons hn]
      · have hn0 : n = 0 := by omega
        subst hn0
        simp only [retryGo, hf, if_neg hlt]
        simp
    | connShape =>
      show retryGo p f attempt (n + 1) = _
      by_cases hlt : attempt < p.max_retries
      · have hn : 1 ≤ n := by omega
        simp only [retryGo, hf, if_pos hlt,
          ih (attempt + 1) hn (by omega), Nat.add_sub_cancel]
        rw [hcons hn]
      · have hn0 : n = 0 := by omega
        subst hn0
        simp only [retryGo, hf, if_neg hlt]
        simp

/-- Claim C1, counterexample: with retryable_status_codes = [401] and
max_retries = 2, an operation that always raises HTTP 401 (a status in
retryable_status_codes) is invoked once, not max_retries times, and an
AuthenticationError is raised instead of a terminal ServerError: the
401/403 check precedes the retryable check. -/
theorem retry_persistent_auth_code_counterexample :
    (∀ n : Nat, (fun _ : Nat => CallOutcome.httpError (some 401)) n =
      CallOutcome.httpError (some 401)) ∧
    401 ∈ (RetryPolicy.mk 2 1 30 [401]).retryable_status_codes ∧
    1 ≤ (RetryPolicy.mk 2 1 30 [401]).max_retries ∧
    ¬ ((handle_api_errors (RetryPolicy.mk 2 1 30 [401])
          (fun _ => CallOutcome.httpError (some 401))).attempts = 2 ∧
       (handle_api_errors (RetryPolicy.mk 2 1 30 [401])
          (fun _ => CallOutcome.httpError (some 401))).result =
         Except.error (RaisedError.serverError 401)) := by
  refine ⟨fun _ => rfl, by decide, by decide, ?_⟩
  intro h
  have := h.1
  simp [handle_api_errors, retryGo] at this

/-- Claim C1 (amended: the persistently raised retryable status is not one
of the authentication codes 401/403): for every retry policy with
max_retries = N >= 1, if every invocation of the wrapped operation raises
an HTTP error whose status code is in retryable_status_codes and is not
401/403, then handle_api_errors invokes the operation exactly N times and
raises a terminal ServerError, never making N+1 attempts. -/
theorem retry_persistent_retryable_exhausts_attempts
    (p : RetryPolicy) (f : Nat → CallOutcome) (s : Nat)
    (hN : 1 ≤ p.max_retries)
    (hs : s ∈ p.retryable_status_codes) (h401 : s ≠ 401) (h403 : s ≠ 403)
    (hf : ∀ n, f n = CallOutcome.httpError (some s)) :
    (handle_api_errors p f).attempts = p.max_retries ∧
      (handle_api_errors p f).result =
        Except.error (RaisedError.serverError s) := by
  have h := retryGo_retryable p f _ _ (RetryableShape.http s h401 h403 hs) hf
    p.max_retries 1 hN (by omega)
  unfold handle_api_errors
  rw [h]
  exact ⟨rfl, rfl⟩

/-- Witness for the amended claim C1 at the default policy and a
persistent HTTP 500. -/
theorem retry_persistent_retryable_exhausts_attempts_witness :
    (handle_api_errors defaultRetryPolicy
        (fun _ => CallOutcome.httpError (some 500))).attempts = 3 ∧
      (handle_api_errors defaultRetryPolicy
          (fun _ => CallOutcome.httpError (some 500))).result =
        Except.error (RaisedError.serverError 500) :=
  retry_persistent_retryable_exhausts_attempts defaultRetryPolicy
    (fun _ => CallOutcome.httpError (some 500)) 500
    (by decide) (by decide) (by decide) (by decide) (fun _ => rfl)

/-- Claim C2: for every attempt k >= 1 and policy with base_delay > 0 and
max_delay > 0, the delay computed before the k-th retry sleep equals
min(base_delay * 2^(k-1), max_delay) and is non-decreasing in k, and the
same backoff schedule is produced for persistent retryable HTTP errors,
timeouts, and connection failures. -/
theorem backoff_schedule_formula_monotone
    (p : RetryPolicy) (s : Nat) (k : Nat)
    (hb : 0 < p.base_delay) (hm : 0 < p.max_delay) (hk : 1 ≤ k)
    (hs : s ∈ p.retryable_status_codes) (h401 : s ≠ 401) (h403 : s ≠ 403) :
    backoffDelay p k = min (p.base_delay * 2 ^ (k - 1)) p.max_delay ∧
    backoffDelay p k ≤ backoffDelay p (k + 1) ∧
    (handle_api_errors p (fun _ => CallOutcome.httpError (some s))).sleeps =
      (List.range (p.max_retries - 1)).map
        (fun i => min (p.base_delay * 2 ^ i) p.max_delay) ∧
    (handle_api_errors p (fun _ => CallOutcome.timeoutExc)).sleeps =
      (handle_api_errors p (fun _ => CallOutcome.httpError (some s))).sleeps ∧
    (handle_api_errors p (fun _ => CallOutcome.connectionExc)).sleeps =
      (handle_api_errors p (fun _ => CallOutcome.httpError (some s))).sleeps := by
  have hsched : ∀ (o : CallOutcome) (e : RaisedError),
      RetryableShape p o e →
      (handle_api_errors p (fun _ => o)).sleeps =
        (List.range (p.max_retries - 1)).map
          (fun i => min (p.base_delay * 2 ^ i) p.max_delay) := by
    intro o e hsh
    rcases Nat.eq_zero_or_pos p.max_retries with h0 | hpos
    · unfold handle_api_errors
      rw [h0]
      simp [retryGo]
    · have h := retryGo_retryable p (fun _ => o) o e hsh (fun _ => rfl)
        p.max_retries 1 hpos (by omega)
      unfold handle_api_errors
      rw [h]
      show (List.range (p.max_retries - 1)).map
          (fun i => backoffDelay p (1 + i)) = _
      have hfun : (fun i => backoffDelay p (1 + i)) =
          fun i => min (p.base_delay * 2 ^ i) p.max_delay := by
        funext i
        show min (p.base_delay * 2 ^ (1 + i - 1)) p.max_delay = _
        have hi : 1 + i - 1 = i := by omega
        rw [hi]
      rw [hfun]
  refine ⟨rfl, ?_, ?_, ?_, ?_⟩
  · have h2 : p.base_delay * 2 ^ (k - 1) ≤ p.base_delay * 2 ^ (k + 1 - 1) := by
      apply mul_le_mul_of_nonneg_left _ hb.le
      apply pow_le_pow_right₀ (by norm_num)
      omega
    exact min_le_min h2 le_rfl
  · exact hsched _ _ (RetryableShape.http s h401 h403 hs)
  · rw [hsched _ _ RetryableShape.timeoutShape,
      hsched _ _ (RetryableShape.http s h401 h403 hs)]
  · rw [hsched _ _ RetryableShape.connShape,
      hsched _ _ (RetryableShape.http s h401 h403 hs)]

/-- Witness for claim C2 at the default policy, retryable status 429,
attempt k = 1. -/
theorem backoff_schedule_formula_monotone_witness :
    backoffDelay defaultRetryPolicy 1 =
      min (defaultRetryPolicy.base_delay * 2 ^ (1 - 1))
        defaultRetryPolicy.max_delay ∧
    backoffDelay defaultRetryPolicy 1 ≤ backoffDelay defaultRetryPolicy 2 ∧
    (handle_api_errors defaultRetryPolicy
        (fun _ => CallOutcome.httpError (some 429))).sleeps =
      (List.range (defaultRetryPolicy.max_retries - 1)).map
        (fun i => min (defaultRetryPolicy.base_delay * 2 ^ i)
          defaultRetryPolicy.max_delay) ∧
    (handle_api_errors defaultRetryPolicy
        (fun _ => CallOutcome.timeoutExc)).sleeps =
      (handle_api_errors defaultRetryPolicy
          (fun _ => CallOutcome.httpError (some 429))).sleeps ∧
    (handle_api_errors defaultRetryPolicy
        (fun _ => CallOutcome.connectionExc)).sleeps =
      (handle_api_errors defaultRetryPolicy
          (fun _ => CallOutcome.httpError (some 429))).sleeps :=
  backoff_schedule_formula_monotone defaultRetryPolicy 429 1
    (by norm_num [defaultRetryPolicy]) (by norm_num [defaultRetryPolicy])
    (by norm_num) (by decide) (by decide) (by decide)

/-- Claim C3: a 401/403 HTTP status is never retried.  In the
handle_api_errors wrapper a first invocation raising HTTP 401/403 gives
exactly one attempt, no backoff sleep, and an immediate AuthenticationError;
in the fetch_cognition_data pagination loop a first response with status
401/403 gives exactly one request (a single skip offset 0) and an immediate
authentication ValueError. -/
theorem auth_status_single_attempt {α : Type}
    (p : RetryPolicy) (f : Nat → CallOutcome) (s : Nat)
    (hN : 1 ≤ p.max_retries) (hs : s = 401 ∨ s = 403)
    (hf : f 1 = CallOutcome.httpError (some s))
    (b : PageBody α) (rest : List (PageResp α)) (psize : Nat) :
    handle_api_errors p f =
      ⟨Except.error (RaisedError.authenticationError s), 1, []⟩ ∧
    fetch_cognition_data (PageResp.ok s b :: rest) psize =
      (Except.error (FetchErr.authFailed s), [0]) := by
  constructor
  · obtain ⟨m, hm⟩ : ∃ m, p.max_retries = m + 1 := ⟨p.max_retries - 1, by omega⟩
    unfold handle_api_errors
    rw [hm]
    simp only [retryGo, hf, if_pos hs]
  · rcases hs with rfl | rfl
    · simp [fetch_cognition_data, fetchPages]
    · simp [fetch_cognition_data, fetchPages]

/-- Witness for claim C3: default policy, HTTP 401 on the first attempt,
and a 401 first page. -/
theorem auth_status_single_attempt_witness :
    handle_api_errors defaultRetryPolicy
        (fun _ => CallOutcome.httpError (some 401)) =
      ⟨Except.error (RaisedError.authenticationError 401), 1, []⟩ ∧
    fetch_cognition_data
        (PageResp.ok 401 (PageBody.mk ([3, 4] : List Nat) true) :: []) 100 =
      (Except.error (FetchErr.authFailed 401), [0]) :=
  auth_status_single_attempt defaultRetryPolicy
    (fun _ => CallOutcome.httpError (some 401)) 401 (by decide) (Or.inl rfl)
    rfl (PageBody.mk [3, 4] true) [] 100

/-- Key lemma on the pagination loop: over a run of status-200 pages whose
has_more flags are true up to a final false page, the loop consumes exactly
those pages (any later responses are never requested), returns the
concatenation of their data arrays, and requests skip offsets advancing by
psize. -/
theorem fetchPages_ok_run {α : Type} (psize : Nat) (lastb : PageBody α)
    (hlast : lastb.has_more = false) (rest : List (PageResp α)) :
    ∀ (front : List (PageBody α)) (skip : Nat),
      (∀ b ∈ front, b.has_more = true) →
      fetchPages ((front ++ [lastb]).map (PageResp.ok 200) ++ rest) skip psize =
        (Except.ok (((front ++ [lastb]).map (·.data)).flatten),
          (List.range (front.length + 1)).map (fun i => skip + i * psize)) := by
  intro front
  induction front with
  | nil =>
    intro skip _
    simp [fetchPages, hlast, List.range_succ]
  | cons b tl ih =>
    intro skip hmore
    have hb : b.has_more = true := hmore b (by simp)
    have htl : ∀ x ∈ tl, x.has_more = true := fun x hx => hmore x (by simp [hx])
    show fetchPages (PageResp.ok 200 b :: ((tl ++ [lastb]).map (PageResp.ok 200) ++ rest))
        skip psize = _
    rw [fetchPages]
    simp only [hb, ih (skip + psize) htl]
    have hrange : (List.range (tl.length + 1 + 1)).map (fun i => skip + i * psize) =
        skip :: (List.range (tl.length + 1)).map (fun i => skip + psize + i * psize) := by
      rw [List.range_succ_eq_map, List.map_cons, List.map_map]
      have hfun : ((fun i => skip + i * psize) ∘ Nat.succ) =
          fun i => skip + psize + i * psize := by
        funext i
        show skip + Nat.succ i * psize = skip + psize + i * psize
        rw [Nat.succ_mul]
        generalize i * psize = t
        omega
      rw [hfun]
      simp
    simp [hrange, Except.map]

/-- Claim C4: for every response sequence whose pages are HTTP 200 with
has_more true until a page with has_more false, fetch_cognition_data
terminates at that page (later responses are never requested), returns the
concatenation in page order of the per-page data arrays, the length of the
returned list is the sum of the per-page data lengths, and the requested
skip offsets advance by page_size each iteration. -/
theorem pagination_terminates_concat {α : Type} (front : List (PageBody α))
    (lastb : PageBody α) (rest : List (PageResp α)) (psize : Nat)
    (hmore : ∀ b ∈ front, b.has_more = true) (hlast : lastb.has_more = false) :
    fetch_cognition_data ((front ++ [lastb]).map (PageResp.ok 200) ++ rest) psize =
      (Except.ok (((front ++ [lastb]).map (·.data)).flatten),
        (List.range (front.length + 1)).map (fun i => i * psize)) ∧
    (((front ++ [lastb]).map (·.data)).flatten).length =
      (((front ++ [lastb]).map (fun b => b.data.length))).sum := by
  constructor
  · have h := fetchPages_ok_run psize lastb hlast rest front 0 hmore
    simpa [fetch_cognition_data] using h
  · rw [List.length_flatten, List.map_map]
    rfl

/-- Witness for claim C4: two pages of two and one record, page size 100. -/
theorem pagination_terminates_concat_witness :
    fetch_cognition_data
        (([PageBody.mk ([1, 2] : List Nat) true, PageBody.mk [3] false].map
          (PageResp.ok 200)) ++ []) 100 =
      (Except.ok ([[1, 2], [3]].flatten),
        (List.range 2).map (fun i => i * 100)) ∧
    (([[1, 2], [3]] : List (List Nat)).flatten).length =
      ((([[1, 2], [3]] : List (List Nat)).map (fun l => l.length)).sum) :=
  pagination_terminates_concat [PageBody.mk [1, 2] true] (PageBody.mk [3] false)
    [] 100 (by decide) rfl

/-- Every failure kind of the per-endpoint call is caught and recorded in
that endpoint's own entry: the entry keeps the endpoint name and path, and
its status_code records the call's own outcome kind. -/
theorem fetchOne_spec (net : String → NetOutcome) (ep : String × String) :
    (fetchOne net ep).1 = ep.1 ∧
    (fetchOne net ep).2.endpoint_path = ep.2 ∧
    (fetchOne net ep).2.status_code = netStatus (net ep.1) := by
  unfold fetchOne netStatus
  cases net ep.1 <;> simp

/-- Claim C5: for every endpoint mapping, fetch_api_data returns exactly
one result entry per endpoint name, in order; a timeout, connection
failure, or any other error on one endpoint is recorded in that endpoint's
own entry (status_code TIMEOUT / CONNECTION_ERROR / ERROR marks) and the
remaining endpoints keep their own entries, whatever the outcomes of the
other calls were. -/
theorem fanout_entry_per_endpoint (endpoints : List (String × String))
    (net : String → NetOutcome) (i : Nat) (hi : i < endpoints.length) :
    (fetch_api_data endpoints net).map Prod.fst = endpoints.map Prod.fst ∧
    ∃ r : FetchResult,
      (fetch_api_data endpoints net)[i]? =
        some ((endpoints.get ⟨i, hi⟩).1, r) ∧
      r.status_code = netStatus (net (endpoints.get ⟨i, hi⟩).1) ∧
      r.endpoint_path = (endpoints.get ⟨i, hi⟩).2 := by
  constructor
  · unfold fetch_api_data
    rw [List.map_map]
    apply List.map_congr_left
    intro ep _
    exact (fetchOne_spec net ep).1
  · refine ⟨(fetchOne net (endpoints.get ⟨i, hi⟩)).2, ?_, ?_, ?_⟩
    · unfold fetch_api_data
      rw [List.getElem?_map]
      rw [List.getElem?_eq_getElem hi]
      show some (fetchOne net (endpoints.get ⟨i, hi⟩)) = _
      rw [Option.some.injEq]
      have h1 := (fetchOne_spec net (endpoints.get ⟨i, hi⟩)).1
      calc fetchOne net (endpoints.get ⟨i, hi⟩)
          = ((fetchOne net (endpoints.get ⟨i, hi⟩)).1,
             (fetchOne net (endpoints.get ⟨i, hi⟩)).2) := rfl
        _ = ((endpoints.get ⟨i, hi⟩).1,
             (fetchOne net (endpoints.get ⟨i, hi⟩)).2) := by rw [h1]
    · exact (fetchOne_spec net (endpoints.get ⟨i, hi⟩)).2.2
    · exact (fetchOne_spec net (endpoints.get ⟨i, hi⟩)).2.1

/-- Witness for claim C5: two endpoints, the first timing out, the second
raising an unexpected error; instantiated at index 0. -/
theorem fanout_entry_per_endpoint_witness :
    (fetch_api_data
        [("consumption_daily", "/consumption/daily"), ("audit", "/audit-logs")]
        (fun name => if name = "consumption_daily" then NetOutcome.netTimeout
          else NetOutcome.netOther "boom")).map Prod.fst =
      ([("consumption_daily", "/consumption/daily"),
        ("audit", "/audit-logs")]).map Prod.fst ∧
    ∃ r : FetchResult,
      (fetch_api_data
          [("consumption_daily", "/consumption/daily"), ("audit", "/audit-logs")]
          (fun name => if name = "consumption_daily" then NetOutcome.netTimeout
            else NetOutcome.netOther "boom"))[0]? =
        some ((([("consumption_daily", "/consumption/daily"),
            ("audit", "/audit-logs")] : List (String × String)).get
              ⟨0, by decide⟩).1, r) ∧
      r.status_code = netStatus
        ((fun name => if name = "consumption_daily" then NetOutcome.netTimeout
          else NetOutcome.netOther "boom")
          ((([("consumption_daily", "/consumption/daily"),
            ("audit", "/audit-logs")] : List (String × String)).get
              ⟨0, by decide⟩).1)) ∧
      r.endpoint_path = (([("consumption_daily", "/consumption/daily"),
          ("audit", "/audit-logs")] : List (String × String)).get
            ⟨0, by decide⟩).2 :=
  fanout_entry_per_endpoint
    [("consumption_daily", "/consumption/daily"), ("audit", "/audit-logs")]
    (fun name => if name = "consumption_daily" then NetOutcome.netTimeout
      else NetOutcome.netOther "boom") 0 (by decide)

/-- Adding v into a bucket raises the total of the bucket values by v. -/
theorem sum_snd_addToGroup (l : List (String × Nat)) (k : String) (v : Nat) :
    ((addToGroup l k v).map Prod.snd).sum = (l.map Prod.snd).sum + v := by
  induction l with
  | nil => simp [addToGroup]
  | cons hd tl ih =>
    rcases hd with ⟨k1, v1⟩
    by_cases h : k1 = k
    · simp [addToGroup, h]
      omega
    · simp [addToGroup, h, ih]
      omega

/-- The bucket totals of a defaultdict accumulation sum to the total of the
accumulated values. -/
theorem sum_snd_groupSum (key : Session → String) (val : Session → Nat)
    (ss : List Session) :
    ((groupSum key val ss).map Prod.snd).sum = (ss.map val).sum := by
  suffices h : ∀ acc : List (String × Nat),
      (((ss.foldl (fun a s => addToGroup a (key s) (val s)) acc)).map
        Prod.snd).sum = (acc.map Prod.snd).sum + (ss.map val).sum by
    simpa [groupSum] using h []
  induction ss with
  | nil => intro acc; simp
  | cons s tl ih =>
    intro acc
    simp only [List.foldl_cons, List.map_cons, List.sum_cons]
    rw [ih, sum_snd_addToGroup]
    omega

/-- Scaling every bucket by the rational price q turns the bucket total
into the cast total times q. -/
theorem sum_snd_map_mul_price (l : List (String × Nat)) (q : ℚ) :
    ((l.map (fun p => (p.1, (p.2 : ℚ) * q))).map Prod.snd).sum =
      ((l.map Prod.snd).sum : ℚ) * q := by
  induction l with
  | nil => simp
  | cons hd tl ih =>
    simp only [List.map_cons, List.sum_cons, ih]
    push_cast
    ring

/-- Claim C6: for every calculator state (sessions, users, pricing config),
the values of calculate_cost_per_user, of calculate_cost_by_task_type and
of calculate_cost_by_department each sum to calculate_total_monthly_cost
to within 0.01 (the sums agree exactly in the rational model). -/
theorem grouped_cost_sums_to_total (c : MetricsCalculator) :
    |((calculate_cost_per_user c).map Prod.snd).sum -
        calculate_total_monthly_cost c| ≤ 1 / 100 ∧
    |((calculate_cost_by_task_type c).map Prod.snd).sum -
        calculate_total_monthly_cost c| ≤ 1 / 100 ∧
    |((calculate_cost_by_department c).map Prod.snd).sum -
        calculate_total_monthly_cost c| ≤ 1 / 100 := by
  have key : ∀ kf : Session → String,
      (((groupSum kf (·.acus_consumed) c.sessions).map
          (fun p => (p.1, (p.2 : ℚ) * c.config.price_per_acu))).map
            Prod.snd).sum = calculate_total_monthly_cost c := by
    intro kf
    rw [sum_snd_map_mul_price, sum_snd_groupSum]
    unfold calculate_total_monthly_cost
    rw [Nat.cast_list_sum, List.map_map]
    rfl
  refine ⟨?_, ?_, ?_⟩
  · show |(((groupSum (·.user_email) (·.acus_consumed) c.sessions).map
        (fun p => (p.1, (p.2 : ℚ) * c.config.price_per_acu))).map
          Prod.snd).sum - calculate_total_monthly_cost c| ≤ 1 / 100
    rw [key]
    simp
  · show |(((groupSum (·.task_type) (·.acus_consumed) c.sessions).map
        (fun p => (p.1, (p.2 : ℚ) * c.config.price_per_acu))).map
          Prod.snd).sum - calculate_total_monthly_cost c| ≤ 1 / 100
    rw [key]
    simp
  · show |(((groupSum (fun s => deptOf c.users s.user_email)
        (·.acus_consumed) c.sessions).map
        (fun p => (p.1, (p.2 : ℚ) * c.config.price_per_acu))).map
          Prod.snd).sum - calculate_total_monthly_cost c| ≤ 1 / 100
    rw [key]
    simp

/-- Running the metric loop over a keyed list of computations keeps every
key and records each computation's outcome (None on a raise). -/
theorem metrics_loop_zip (ks : List String)
    (os : List (Except Unit MetricValue)) :
    metrics_loop (ks.zip os) = ks.zip (os.map Except.toOption) := by
  induction ks generalizing os with
  | nil => simp [metrics_loop]
  | cons k tl ih =>
    cases os with
    | nil => simp [metrics_loop]
    | cons o otl =>
      simp only [List.zip_cons_cons, metrics_loop, List.map_cons]
      have h := ih otl
      simp only [metrics_loop] at h
      rw [h]

/-- Claim C7: with data loaded, calculate_all_metrics returns a metrics
dictionary containing exactly the 20 named keys, in order, whatever the
outcomes of the individual metric computations are: a raising computation
leaves its key present with the None sentinel, the other computations are
still recorded — a key is never absent.  The key list of the real
metric_methods table is exactly these 20 keys. -/
theorem all_metrics_keys_total (c : MetricsCalculator) (d : UsageData)
    (outcomes : List (Except Unit MetricValue))
    (hd : c.data = some d) (hlen : outcomes.length = metricKeys.length) :
    ∃ out : MetricsOutput,
      calculate_all_metrics_with c (metricKeys.zip outcomes) =
        Except.ok out ∧
      out.metrics = metricKeys.zip (outcomes.map Except.toOption) ∧
      out.metrics.map Prod.fst = metricKeys ∧
      metricKeys.length = 20 ∧
      (metric_methods c).map Prod.fst = metricKeys := by
  refine ⟨⟨c.config, d.reporting_period, metrics_loop (metricKeys.zip outcomes)⟩,
    ?_, ?_, ?_, ?_, ?_⟩
  · unfold calculate_all_metrics_with
    rw [hd]
  · exact metrics_loop_zip metricKeys outcomes
  · show (metrics_loop (metricKeys.zip outcomes)).map Prod.fst = metricKeys
    rw [metrics_loop_zip]
    apply List.map_fst_zip
    simp [hlen]
  · rfl
  · rfl

/-- Witness for claim C7: a trivial loaded calculator and a computation
vector in which every metric raises; all 20 keys are still produced. -/
theorem all_metrics_keys_total_witness :
    ∃ out : MetricsOutput,
      calculate_all_metrics_with
          (MetricsCalculator.mk defaultMetricsConfig
            (some (UsageData.mk none (ReportingPeriod.mk none none none) [] []))
            [] [])
          (metricKeys.zip (List.replicate 20 (Except.error ()))) =
        Except.ok out ∧
      out.metrics = metricKeys.zip
        ((List.replicate 20 (Except.error ())).map Except.toOption) ∧
      out.metrics.map Prod.fst = metricKeys ∧
      metricKeys.length = 20 ∧
      (metric_methods (MetricsCalculator.mk defaultMetricsConfig
          (some (UsageData.mk none (ReportingPeriod.mk none none none) [] []))
          [] [])).map Prod.fst = metricKeys :=
  all_metrics_keys_total
    (MetricsCalculator.mk defaultMetricsConfig
      (some (UsageData.mk none (ReportingPeriod.mk none none none) [] []))
      [] [])
    (UsageData.mk none (ReportingPeriod.mk none none none) [] [])
    (List.replicate 20 (Except.error ())) rfl (by simp [metricKeys])

/-- Claim C10: calling calculate_all_metrics before load_data has set the
calculator's data (data still None) raises MetricsCalculationError instead
of returning any metrics dictionary. -/
theorem all_metrics_requires_loaded_data (c : MetricsCalculator)
    (hc : c.data = none) :
    calculate_all_metrics c = Except.error (CalcError.metricsCalculationError
      "No data loaded. Call load_data() before calculate_all_metrics().") := by
  unfold calculate_all_metrics calculate_all_metrics_with
  rw [hc]

/-- Witness for claim C10: a freshly constructed calculator with no data. -/
theorem all_metrics_requires_loaded_data_witness :
    calculate_all_metrics
        (MetricsCalculator.mk defaultMetricsConfig none [] []) =
      Except.error (CalcError.metricsCalculationError
        "No data loaded. Call load_data() before calculate_all_metrics().") :=
  all_metrics_requires_loaded_data
    (MetricsCalculator.mk defaultMetricsConfig none [] []) rfl

/-- Claim C8: calculate_monthly_acus sums exactly the ACU values whose date
key starts with the YYYY-MM month string, and on the concrete input of the
spec, the September 2024 total of {2024-09-01: 100, 2024-09-15: 200,
2024-10-01: 50} is 300. -/
theorem monthly_acus_filter_sum :
    (∀ (m : List (String × ℚ)) (ms : String),
      calculate_monthly_acus m ms =
        ((m.filter (fun p => strStartsWith p.1 ms)).map Prod.snd).sum) ∧
    calculate_monthly_acus
      [("2024-09-01", 100), ("2024-09-15", 200), ("2024-10-01", 50)]
      "2024-09" = 300 := by
  have hgen : ∀ (ms : String) (m : List (String × ℚ)) (total : ℚ),
      m.foldl (fun t p => if strStartsWith p.1 ms then t + p.2 else t) total =
        total + ((m.filter (fun p => strStartsWith p.1 ms)).map Prod.snd).sum := by
    intro ms m
    induction m with
    | nil => intro total; simp
    | cons hd tl ih =>
      intro total
      by_cases h : strStartsWith hd.1 ms
      · simp only [List.foldl_cons, List.filter_cons, h, if_pos, ih,
          List.map_cons, List.sum_cons]
        ring
      · simp only [List.foldl_cons, List.filter_cons, h, if_neg, ih]
        simp [h]
  constructor
  · intro m ms
    have h := hgen ms m 0
    simpa [calculate_monthly_acus] using h
  · have h1 : strStartsWith "2024-09-01" "2024-09" = true := by decide
    have h2 : strStartsWith "2024-09-15" "2024-09" = true := by decide
    have h3 : strStartsWith "2024-10-01" "2024-09" = false := by decide
    simp only [calculate_monthly_acus, List.foldl_cons, List.foldl_nil,
      h1, h2, h3, if_true, if_false]
    norm_num

/-- Keys produced by the consumption_daily block: only when the endpoint
passed its guards, and then exactly the consumption keys. -/
theorem extractConsumption_keys (jparse : String → Option JsonLike)
    (api : List (String × FetchResult)) (k : String)
    (h : k ∈ (extractConsumption jparse api).map Prod.fst) :
    (endpointObj jparse api "consumption_daily").isSome ∧
      k ∈ consumptionKeys := by
  cases hx : endpointObj jparse api "consumption_daily" with
  | none => simp [extractConsumption, hx] at h
  | some o =>
    refine ⟨by simp [hx], ?_⟩
    simp only [extractConsumption, hx, List.map_cons, List.map_nil] at h
    simp only [consumptionKeys]
    simpa using h

/-- Keys produced by the metrics_prs block. -/
theorem extractPRs_keys (jparse : String → Option JsonLike)
    (api : List (String × FetchResult)) (k : String)
    (h : k ∈ (extractPRs jparse api).map Prod.fst) :
    (endpointObj jparse api "metrics_prs").isSome ∧ k ∈ prsKeys := by
  cases hx : endpointObj jparse api "metrics_prs" with
  | none => simp [extractPRs, hx] at h
  | some o =>
    refine ⟨by simp [hx], ?_⟩
    simp only [extractPRs, hx, List.map_cons, List.map_nil] at h
    simp only [prsKeys]
    simpa using h

/-- Keys produced by the metrics_sessions block. -/
theorem extractSessions_keys (jparse : String → Option JsonLike)
    (api : List (String × FetchResult)) (k : String)
    (h : k ∈ (extractSessions jparse api).map Prod.fst) :
    (endpointObj jparse api "metrics_sessions").isSome ∧
      k = "sessions_count" := by
  cases hx : endpointObj jparse api "metrics_sessions" with
  | none => simp [extractSessions, hx] at h
  | some o =>
    refine ⟨by simp [hx], ?_⟩
    simp only [extractSessions, hx, List.map_cons, List.map_nil] at h
    simpa using h

/-- Keys produced by the members block. -/
theorem extractMembers_keys (jparse : String → Option JsonLike)
    (api : List (String × FetchResult)) (k : String)
    (h : k ∈ (extractMembers jparse api).map Prod.fst) :
    (endpointObj jparse api "members").isSome ∧ k = "user_count" := by
  cases hx : endpointObj jparse api "members" with
  | none => simp [extractMembers, hx] at h
  | some o =>
    refine ⟨by simp [hx], ?_⟩
    simp only [extractMembers, hx, List.map_cons, List.map_nil] at h
    simpa using h

/-- Membership in the base-metric key set implies the source endpoint
passed its status/parse guards (or the key is the unconditional
price_per_acu). -/
theorem calc_base_keys_sub (jparse : String → Option JsonLike)
    (api : List (String × FetchResult)) (cfg : MetricsConfig) (k : String)
    (h : k ∈ (calculate_base_metrics jparse api cfg).map Prod.fst) :
    ((endpointObj jparse api "consumption_daily").isSome ∧
      k ∈ consumptionKeys) ∨
    ((endpointObj jparse api "metrics_prs").isSome ∧ k ∈ prsKeys) ∨
    ((endpointObj jparse api "metrics_sessions").isSome ∧
      k = "sessions_count") ∨
    ((endpointObj jparse api "members").isSome ∧ k = "user_count") ∨
    k = "price_per_acu" := by
  unfold calculate_base_metrics at h
  simp only [List.map_append, List.mem_append] at h
  rcases h with ((((h | h) | h) | h) | h)
  · exact Or.inl (extractConsumption_keys jparse api k h)
  · exact Or.inr (Or.inl (extractPRs_keys jparse api k h))
  · exact Or.inr (Or.inr (Or.inl (extractSessions_keys jparse api k h)))
  · exact Or.inr (Or.inr (Or.inr (Or.inl (extractMembers_keys jparse api k h))))
  · simp at h
    exact Or.inr (Or.inr (Or.inr (Or.inr h)))

/-- Claim C9: a base-metric key derived from an endpoint is absent from the
calculate_base_metrics result whenever that endpoint's entry is missing,
has a status_code other than 200, or has a body that does not decode to a
JSON object (all of which make the block's endpointObj guard come out
none); only the config-sourced price_per_acu key is present
unconditionally. -/
theorem base_metrics_omit_on_failure (jparse : String → Option JsonLike)
    (api : List (String × FetchResult)) (cfg : MetricsConfig) :
    (∀ name ep, List.lookup name api = some ep →
      (ep.status_code ≠ StatusCode.code 200 ∨
        respToObj jparse ep.response = none) →
      endpointObj jparse api name = none) ∧
    "price_per_acu" ∈ (calculate_base_metrics jparse api cfg).map Prod.fst ∧
    (endpointObj jparse api "consumption_daily" = none →
      ∀ k ∈ consumptionKeys,
        k ∉ (calculate_base_metrics jparse api cfg).map Prod.fst) ∧
    (endpointObj jparse api "metrics_prs" = none →
      ∀ k ∈ prsKeys,
        k ∉ (calculate_base_metrics jparse api cfg).map Prod.fst) ∧
    (endpointObj jparse api "metrics_sessions" = none →
      "sessions_count" ∉ (calculate_base_metrics jparse api cfg).map Prod.fst) ∧
    (endpointObj jparse api "members" = none →
      "user_count" ∉ (calculate_base_metrics jparse api cfg).map Prod.fst) := by
  refine ⟨?_, ?_, ?_, ?_, ?_, ?_⟩
  · intro name ep hl hbad
    unfold endpointObj
    rw [hl]
    show (if ep.status_code = StatusCode.code 200 then
      respToObj jparse ep.response else none) = none
    rcases hbad with hbad | hbad
    · rw [if_neg hbad]
    · by_cases hst : ep.status_code = StatusCode.code 200
      · rw [if_pos hst]
        exact hbad
      · rw [if_neg hst]
  · unfold calculate_base_metrics
    simp
  · intro h k hk hmem
    rcases calc_base_keys_sub jparse api cfg k hmem with
      ⟨hs, _⟩ | ⟨_, hm⟩ | ⟨_, hm⟩ | ⟨_, hm⟩ | hm
    · rw [h] at hs
      simp at hs
    · fin_cases hk <;> simp [prsKeys] at hm
    · fin_cases hk <;> simp at hm
    · fin_cases hk <;> simp at hm
    · fin_cases hk <;> simp at hm
  · intro h k hk hmem
    rcases calc_base_keys_sub jparse api cfg k hmem with
      ⟨_, hm⟩ | ⟨hs, _⟩ | ⟨_, hm⟩ | ⟨_, hm⟩ | hm
    · fin_cases hk <;> simp [consumptionKeys] at hm
    · rw [h] at hs
      simp at hs
    · fin_cases hk <;> simp at hm
    · fin_cases hk <;> simp at hm
    · fin_cases hk <;> simp at hm
  · intro h hmem
    rcases calc_base_keys_sub jparse api cfg "sessions_count" hmem with
      ⟨_, hm⟩ | ⟨_, hm⟩ | ⟨hs, _⟩ | ⟨_, hm⟩ | hm
    · simp [consumptionKeys] at hm
    · simp [prsKeys] at hm
    · rw [h] at hs
      simp at hs
    · simp at hm
    · simp at hm
  · intro h hmem
    rcases calc_base_keys_sub jparse api cfg "user_count" hmem with
      ⟨_, hm⟩ | ⟨_, hm⟩ | ⟨_, hm⟩ | ⟨hs, _⟩ | hm
    · simp [consumptionKeys] at hm
    · simp [prsKeys] at hm
    · simp at hm
    · rw [h] at hs
      simp at hs
    · simp at hm

/-- Witness for claim C9 at the empty API data set: every endpoint guard
comes out none, all derived keys are absent, price_per_acu is present. -/
theorem base_metrics_omit_on_failure_witness :
    "price_per_acu" ∈
      (calculate_base_metrics (fun _ => none) [] defaultMetricsConfig).map
        Prod.fst ∧
    (∀ k ∈ consumptionKeys,
      k ∉ (calculate_base_metrics (fun _ => none) [] defaultMetricsConfig).map
        Prod.fst) ∧
    (∀ k ∈ prsKeys,
      k ∉ (calculate_base_metrics (fun _ => none) [] defaultMetricsConfig).map
        Prod.fst) ∧
    "sessions_count" ∉
      (calculate_base_metrics (fun _ => none) [] defaultMetricsConfig).map
        Prod.fst ∧
    "user_count" ∉
      (calculate_base_metrics (fun _ => none) [] defaultMetricsConfig).map
        Prod.fst := by
  have h := base_metrics_omit_on_failure (fun _ => none) [] defaultMetricsConfig
  exact ⟨h.2.1, h.2.2.1 rfl, h.2.2.2.1 rfl, h.2.2.2.2.1 rfl, h.2.2.2.2.2 rfl⟩
